import Mathlib

/-!
Verification of the rate-limit-aware HTTP dispatch core of pycord-v3
(`src/pycord/internal/http/__init__.py`), shallowly embedded in Lean 4.

The embedding models:
* `Route` — the endpoint template plus scoping ids (`Route.__init__`,
  `Route.merge`);
* `Block` — the per-bucket gate (imported from `pycord.internal.blocks`,
  whose source is not part of this repository; modelled from the spec);
* `HTTPClient.request` — the retry loop: pre-flight gating scan, network
  send, and response interpretation (429 gating, typed failures, success);
* `HTTPClient.get_cdn_asset` — the ungated binary fetch.

The single-task cooperative execution of one `request` call is modelled as
a deterministic function from the current gate dictionary and a stream of
responses (one per attempt) to the final dictionary, a trace of observable
events (waits, sends, gate installs/arms/removals) and an outcome.
-/

namespace Pycord

/-- A segment of a path template string: either literal text or one of the
four placeholders that `Route.merge` substitutes via `str.format`. -/
inductive Seg where
  | lit (s : String)
  | guildId
  | channelId
  | webhookId
  | webhookToken
deriving DecidableEq, Repr

/-- Python `str.format` renders `None` as the text `"None"` and an int in
decimal; this is `format(v, '')` for an `int | None` value. -/
def pyFormatInt : Option Int → String
  | none => "None"
  | some n => toString n

/-- `format(v, '')` for a `str | None` value. -/
def pyFormatStr : Option String → String
  | none => "None"
  | some s => s

/-- `Route.__init__`: a path template plus the optional scoping identifiers,
in the source's argument order. -/
structure Route where
  path : List Seg
  guild_id : Option Int := none
  channel_id : Option Int := none
  webhook_id : Option Int := none
  webhook_token : Option String := none
deriving DecidableEq, Repr

/-- Rendering of one template segment against a route's identifiers, as
`self.path.format(guild_id=..., channel_id=..., webhook_id=..., webhook_token=...)`
does. -/
def Seg.render (r : Route) : Seg → String
  | .lit s => s
  | .guildId => pyFormatInt r.guild_id
  | .channelId => pyFormatInt r.channel_id
  | .webhookId => pyFormatInt r.webhook_id
  | .webhookToken => pyFormatStr r.webhook_token

/-- `Route.merge`: `url + self.path.format(...)`. -/
def Route.merge (r : Route) (url : String) : String :=
  url ++ String.join (r.path.map (Seg.render r))

/-- The raw (unformatted) text of one template segment, placeholders kept as
`\x7bname\x7d` text. `Route.path` in the source is this raw string. -/
def Seg.raw : Seg → String
  | .lit s => s
  | .guildId => "\x7bguild_id\x7d"
  | .channelId => "\x7bchannel_id\x7d"
  | .webhookId => "\x7bwebhook_id\x7d"
  | .webhookToken => "\x7bwebhook_token\x7d"

/-- The raw template string stored in the `path` attribute of a `Route`,
i.e. what `blocker.route.path` denotes in the gating scan. -/
def Route.rawPath (r : Route) : String :=
  String.join (r.path.map Seg.raw)

/-- Modelled from the spec: `Block` is imported from
`pycord.internal.blocks`, whose source file is not part of this repository.
Per the spec's `BucketGate`, it holds the route that triggered it, the
bucket identifier and global flag recorded when it is armed
(`block(reset_after, bucket, globalrt)`), and an internal release signal
(the timing of which is not modelled; waits are recorded as trace events).
A freshly constructed `Block(route)` is unarmed: no bucket, no duration,
not global. -/
structure Block where
  route : Route
  bucket_denom : Option String := none
  reset_after : Option String := none
  is_global : Bool := false
deriving DecidableEq, Repr

/-- The `HTTPClient._blockers` dictionary: insertion-ordered mapping from
bucket identifier to gate. -/
abbrev Blockers := List (String × Block)

/-- `d.get(k)` / `d[k]` lookup on the insertion-ordered dictionary. -/
def dictGet (d : Blockers) (k : String) : Option Block :=
  match d with
  | [] => none
  | (k', v) :: rest => if k' = k then some v else dictGet rest k

/-- `d[k] = v`: replace in place if the key exists, else append. -/
def dictSet (d : Blockers) (k : String) (v : Block) : Blockers :=
  match d with
  | [] => [(k, v)]
  | (k', v') :: rest =>
    if k' = k then (k, v) :: rest else (k', v') :: dictSet rest k v

/-- `del d[k]`: drop the entry for `k`. -/
def dictDel (d : Blockers) (k : String) : Blockers :=
  d.filter (fun p => p.1 ≠ k)

/-- Python dictionaries cannot hold a key twice; the association-list model
keeps that as an invariant. -/
def keysNodup (d : Blockers) : Prop :=
  (d.map Prod.fst).Nodup

instance (d : Blockers) : Decidable (keysNodup d) := by
  unfold keysNodup; infer_instance

/-- The parts of an HTTP response that `request` inspects: status code, the
three rate-limit headers (absent header = `none`), and the decoded body. -/
structure Response where
  status : Nat
  xBucket : Option String := none
  xResetAfter : Option String := none
  xScope : Option String := none
  body : String := ""
deriving DecidableEq, Repr

/-- Body of `isPyFloat`: decimal digits with at most one point and at
least one digit overall. -/
def isPyFloatCore : List Char → Bool → Bool → Bool
  | [], _, seenDigit => seenDigit
  | c :: rest, seenDot, seenDigit =>
    if c.isDigit then isPyFloatCore rest seenDot true
    else if c == '.' && !seenDot then isPyFloatCore rest true seenDigit
    else false

/-- Simplified model of the numeric strings accepted by Python `float()`:
an optional sign followed by decimal digits with at most one point and at
least one digit. (Exponents, `inf`/`nan`, underscores and surrounding
whitespace are left out; no claim depends on them.) -/
def isPyFloat (s : String) : Bool :=
  match s.toList with
  | [] => false
  | c :: rest =>
    if c == '-' || c == '+' then isPyFloatCore rest false false
    else isPyFloatCore (c :: rest) false false

/-- What the pre-flight gating scan does with one active gate: wait and keep
scanning, wait and stop scanning, or pass over it. -/
inductive ScanAction where
  | waitContinue
  | waitBreak
  | skip
deriving DecidableEq, Repr

/-- The branch taken for one `blocker` in the scan
(`for blocker in self._blockers.values(): ...`): the `if` arm compares the
four scoping ids with `==` (waits, loop continues), the first `elif`
compares the gate route's raw `path` string with the merged `endpoint`
(waits, then `break`), the second `elif` tests the global flag (waits, then
`break`). -/
def scanAction (b : Block) (route : Route) (endpoint : String) : ScanAction :=
  if b.route.channel_id == route.channel_id
      || b.route.guild_id == route.guild_id
      || b.route.webhook_id == route.webhook_id
      || b.route.webhook_token == route.webhook_token then
    .waitContinue
  else if b.route.rawPath == endpoint then
    .waitBreak
  else if b.is_global then
    .waitBreak
  else
    .skip

/-- The gates the pre-flight scan waits on, in scan order; a `waitBreak`
match ends the scan. -/
def preflightScan (blocks : List Block) (route : Route) (endpoint : String) :
    List Block :=
  match blocks with
  | [] => []
  | b :: rest =>
    match scanAction b route endpoint with
    | .waitContinue => b :: preflightScan rest route endpoint
    | .waitBreak => [b]
    | .skip => preflightScan rest route endpoint

/-- Observable events of one `request` call. -/
inductive Ev where
  | wait (b : Block)
  | send (endpoint : String)
  | install (bucket : String)
  | armWait (bucket : String) (reset_after : String) (globalrt : Bool)
  | remove (bucket : String)
deriving DecidableEq, Repr

/-- How a `request` call ends: a decoded success body, one of the four
typed failures raised by the status branch, an uncaught Python-level error
(`KeyError` from a missing header or `ValueError` from `float()`), or the
implicit `None` return when the retry loop completes without returning. -/
inductive Outcome where
  | success (body : String)
  | unauthorized
  | forbidden
  | notFound
  | httpException
  | pythonError (msg : String)
  | exhausted
deriving DecidableEq, Repr

/-- One iteration of the `for _ in range(self.max_retries)` body: the
pre-flight scan (each wait recorded), the network send, then the response
branches. Returns the new `_blockers` dictionary, the event trace of this
attempt, and `some` outcome when the iteration leaves the loop (return or
raise) or `none` when it `continue`s. -/
def attempt (blockers : Blockers) (route : Route) (endpoint : String)
    (r : Response) : Blockers × List Ev × Option Outcome :=
  let evs := (preflightScan (blockers.map Prod.snd) route endpoint).map Ev.wait
      ++ [Ev.send endpoint]
  if r.status == 429 then
    match r.xBucket with
    | none => (blockers, evs, none)
    | some bucket =>
      match dictGet blockers bucket with
      | some block => (blockers, evs ++ [Ev.wait block], none)
      | none =>
        let block : Block := { route := route }
        let blockers1 := dictSet blockers bucket block
        let evs1 := evs ++ [Ev.install bucket]
        match r.xResetAfter with
        | none =>
          (blockers1, evs1, some (.pythonError "KeyError: X-RateLimit-Reset-After"))
        | some ra =>
          if isPyFloat ra then
            match r.xScope with
            | none =>
              (blockers1, evs1, some (.pythonError "KeyError: X-RateLimit-Scope"))
            | some scope =>
              let armed : Block :=
                { block with bucket_denom := some bucket, reset_after := some ra,
                             is_global := scope == "global" }
              (dictDel (dictSet blockers1 bucket armed) bucket,
               evs1 ++ [Ev.armWait bucket ra (scope == "global"), Ev.remove bucket],
               none)
          else
            (blockers1, evs1, some (.pythonError "ValueError: could not convert string to float"))
  else if r.status ≥ 400 then
    (blockers, evs,
     some (if r.status == 401 then .unauthorized
           else if r.status == 403 then .forbidden
           else if r.status == 404 then .notFound
           else .httpException))
  else
    (blockers, evs, some (.success r.body))

/-- The bounded retry loop: `n` attempts remain, `i` is the index into the
response stream (attempt `i` receives `resps i`). Falling off the end of
the loop is the implicit `None` return, `Outcome.exhausted`. -/
def requestLoop (route : Route) (endpoint : String) (resps : Nat → Response) :
    Nat → Nat → Blockers → Blockers × List Ev × Outcome
  | 0, _, blockers => (blockers, [], .exhausted)
  | n + 1, i, blockers =>
    match attempt blockers route endpoint (resps i) with
    | (b', evs, some o) => (b', evs, o)
    | (b', evs, none) =>
      match requestLoop route endpoint resps n (i + 1) b' with
      | (b'', evs', o) => (b'', evs ++ evs', o)

namespace HTTPClient

/-- `HTTPClient.request`: computes `endpoint = route.merge(self.url)` once,
then runs the retry loop over `max_retries` attempts starting from the
current `_blockers` dictionary, against the stream of responses the network
returns. -/
def request (max_retries : Nat) (url : String) (blockers : Blockers)
    (route : Route) (resps : Nat → Response) : Blockers × List Ev × Outcome :=
  requestLoop route (route.merge url) resps max_retries 0 blockers

/-- Result of the binary-asset fetch. -/
inductive CdnResult where
  | bytes (b : String)
  | forbidden
  | notFound
  | httpException
deriving DecidableEq, Repr

/-- `HTTPClient.get_cdn_asset`: a plain GET with a `match` on the status
(its integer-literal cases are sequential equality tests) — `200` returns
the body bytes, `403` and `404` raise the typed failures, and every other
status (the wildcard arm) raises the generic failure. It never touches
`_blockers`. -/
def get_cdn_asset (r : Response) : CdnResult :=
  if r.status == 200 then .bytes r.body
  else if r.status == 403 then .forbidden
  else if r.status == 404 then .notFound
  else .httpException

end HTTPClient

/-- Number of network sends in a trace — the number of attempts performed. -/
def countSends (evs : List Ev) : Nat :=
  (evs.filter (fun e => match e with | .send _ => true | _ => false)).length

/-- The first arm of the gating scan fires when the gate's route and the
candidate route agree on any of the four scoping identifiers (unset ids
included: `None == None` is true in Python). -/
def sharesScope (b : Block) (route : Route) : Prop :=
  b.route.channel_id = route.channel_id ∨ b.route.guild_id = route.guild_id
    ∨ b.route.webhook_id = route.webhook_id
    ∨ b.route.webhook_token = route.webhook_token

instance (b : Block) (route : Route) : Decidable (sharesScope b route) := by
  unfold sharesScope; infer_instance

/-- The base URL of the client for concrete evaluations
(`https://discord.com/api/v{version}` at `version = 10`). -/
def apiURL : String := "https://discord.com/api/v10"

/-- Fixture: a route with all four scoping identifiers set. -/
def exampleGateRoute : Route :=
  { path := [Seg.lit "/a"], guild_id := some 1, channel_id := some 2,
    webhook_id := some 3, webhook_token := some "t" }

/-- Fixture: a gate over `exampleGateRoute`, not global. -/
def exampleGate : Block := { route := exampleGateRoute }

/-- Fixture: a route on the same path template as `exampleGateRoute` whose
four identifiers all differ from it. -/
def exampleCand : Route :=
  { path := [Seg.lit "/a"], guild_id := some 9, channel_id := some 8,
    webhook_id := some 7, webhook_token := some "u" }

/-- Fixture: a gate whose route's raw template text happens to equal a full
merged URL. -/
def examplePathGate : Block :=
  { route := { path := [Seg.lit "https://discord.com/api/v10/b"],
               guild_id := some 1, channel_id := some 2,
               webhook_id := some 3, webhook_token := some "t" } }

/-- Fixture: a candidate route that merges to the text stored as
`examplePathGate`'s raw template. -/
def examplePathCand : Route :=
  { path := [Seg.lit "/b"], guild_id := some 9, channel_id := some 8,
    webhook_id := some 7, webhook_token := some "u" }

theorem dictDel_dictSet (d : Blockers) (k : String) (v : Block) :
    dictDel (dictSet d k v) k = dictDel d k := by
  induction d with
  | nil => simp [dictSet, dictDel]
  | cons p rest ih =>
    obtain ⟨k', v'⟩ := p
    by_cases h : k' = k
    · subst h; simp [dictSet, dictDel]
    · simp [dictSet, dictDel, h, List.filter] at ih ⊢
      exact ih

theorem dictDel_of_get_none (d : Blockers) (k : String)
    (h : dictGet d k = none) : dictDel d k = d := by
  induction d with
  | nil => simp [dictDel]
  | cons p rest ih =>
    obtain ⟨k', v'⟩ := p
    by_cases hk : k' = k
    · subst hk; simp [dictGet] at h
    · simp [dictGet, hk] at h
      simp [dictDel, List.filter, hk] at ih ⊢
      exact ih h

/-- C1 core: on a 429 naming a fresh bucket with both rate-limit headers
readable, the attempt installs a gate, arms it and waits, removes it, and
continues to the next attempt — the final dictionary is the original one,
so in particular it holds no gate for that bucket. -/
theorem attempt_new_gate_429 (blockers : Blockers) (route : Route)
    (ep : String) (r : Response) (bucket ra sc : String)
    (h429 : r.status = 429) (hb : r.xBucket = some bucket)
    (hnew : dictGet blockers bucket = none)
    (hra : r.xResetAfter = some ra) (hfl : isPyFloat ra = true)
    (hsc : r.xScope = some sc) :
    attempt blockers route ep r
      = (blockers,
         (preflightScan (blockers.map Prod.snd) route ep).map Ev.wait
           ++ [Ev.send ep, Ev.install bucket,
               Ev.armWait bucket ra (sc == "global"), Ev.remove bucket],
         none)
    ∧ dictGet blockers bucket = none := by
  refine ⟨?_, hnew⟩
  simp [attempt, h429, hb, hnew, hra, hfl, hsc, dictDel_dictSet,
    dictDel_of_get_none blockers bucket hnew]

/-- C2 core: a 429 naming a bucket whose gate is already in the dictionary
waits on that existing gate and continues; the dictionary is returned
untouched (no install, no removal), and its keys stay duplicate-free. -/
theorem attempt_existing_gate_429 (blockers : Blockers) (route : Route)
    (ep : String) (r : Response) (bucket : String) (block : Block)
    (h429 : r.status = 429) (hb : r.xBucket = some bucket)
    (hex : dictGet blockers bucket = some block)
    (hnd : keysNodup blockers) :
    attempt blockers route ep r
      = (blockers,
         (preflightScan (blockers.map Prod.snd) route ep).map Ev.wait
           ++ [Ev.send ep, Ev.wait block],
         none)
    ∧ keysNodup (attempt blockers route ep r).1 := by
  have h : attempt blockers route ep r
      = (blockers,
         (preflightScan (blockers.map Prod.snd) route ep).map Ev.wait
           ++ [Ev.send ep, Ev.wait block],
         none) := by
    simp [attempt, h429, hb, hex]
  exact ⟨h, by rw [h]; exact hnd⟩

/-- C5 core: any status that is ≥ 400 and not 429 ends the loop on the spot
with the typed failure chosen by the status, however many retries remain;
the gate dictionary is returned exactly as it was and the trace holds only
the pre-flight waits and the send. -/
theorem request_hard_failure (blockers : Blockers) (route : Route)
    (ep : String) (r : Response) (resps : Nat → Response) (n i : Nat)
    (h4 : 400 ≤ r.status) (hne : r.status ≠ 429) (hres : resps i = r) :
    requestLoop route ep resps (n + 1) i blockers
      = (blockers,
         (preflightScan (blockers.map Prod.snd) route ep).map Ev.wait
           ++ [Ev.send ep],
         if r.status = 401 then .unauthorized
         else if r.status = 403 then .forbidden
         else if r.status = 404 then .notFound
         else .httpException) := by
  have hb : (r.status == 429) = false := by simp [hne]
  simp [requestLoop, attempt, hres, hb, h4]

/-- C6 core: a 429 whose bucket header is unreadable neither waits in the
429 branch nor touches the gate dictionary; the attempt just falls through
to the next loop iteration, consuming one retry slot. -/
theorem attempt_unreadable_bucket (blockers : Blockers) (route : Route)
    (ep : String) (r : Response) (resps : Nat → Response) (n i : Nat)
    (h429 : r.status = 429) (hb : r.xBucket = none) (hres : resps i = r) :
    attempt blockers route ep r
      = (blockers,
         (preflightScan (blockers.map Prod.snd) route ep).map Ev.wait
           ++ [Ev.send ep],
         none)
    ∧ requestLoop route ep resps (n + 1) i blockers
      = ((requestLoop route ep resps n (i + 1) blockers).1,
         ((preflightScan (blockers.map Prod.snd) route ep).map Ev.wait
           ++ [Ev.send ep])
           ++ (requestLoop route ep resps n (i + 1) blockers).2.1,
         (requestLoop route ep resps n (i + 1) blockers).2.2) := by
  have h : attempt blockers route ep r
      = (blockers,
         (preflightScan (blockers.map Prod.snd) route ep).map Ev.wait
           ++ [Ev.send ep],
         none) := by
    simp [attempt, h429, hb]
  refine ⟨h, ?_⟩
  simp [requestLoop, hres, h]

theorem dictGet_dictSet (d : Blockers) (k : String) (v : Block) :
    dictGet (dictSet d k v) k = some v := by
  induction d with
  | nil => simp [dictSet, dictGet]
  | cons p rest ih =>
    obtain ⟨k', v'⟩ := p
    by_cases h : k' = k
    · subst h; simp [dictSet, dictGet]
    · simp [dictSet, dictGet, h]
      exact ih

/-- The scan branch for one gate, restated over propositional equality of
the identifiers: the `if` arm fires exactly when some scoping id is shared,
the first `elif` when the gate's raw template text equals the merged
endpoint, the second `elif` when the gate is global. -/
theorem scanAction_eq (b : Block) (route : Route) (ep : String) :
    scanAction b route ep
      = if sharesScope b route then ScanAction.waitContinue
        else if b.route.rawPath = ep then ScanAction.waitBreak
        else if b.is_global then ScanAction.waitBreak
        else ScanAction.skip := by
  unfold scanAction sharesScope
  by_cases h1 : b.route.channel_id = route.channel_id <;>
    by_cases h2 : b.route.guild_id = route.guild_id <;>
      by_cases h3 : b.route.webhook_id = route.webhook_id <;>
        by_cases h4 : b.route.webhook_token = route.webhook_token <;>
          simp [h1, h2, h3, h4]

/-- C3 core: a scope-sharing gate is waited on and the scan then continues
over the remaining gates; a gate reached by the exact-path test, or by the
global test, is waited on and the scan stops there. -/
theorem scan_branching (b : Block) (rest : List Block) (route : Route)
    (ep : String) :
    (sharesScope b route →
      preflightScan (b :: rest) route ep = b :: preflightScan rest route ep)
    ∧ (¬sharesScope b route → b.route.rawPath = ep →
      preflightScan (b :: rest) route ep = [b])
    ∧ (¬sharesScope b route → b.route.rawPath ≠ ep → b.is_global = true →
      preflightScan (b :: rest) route ep = [b]) := by
  refine ⟨fun hs => ?_, fun hs hp => ?_, fun hs hp hg => ?_⟩
  · simp [preflightScan, scanAction_eq, hs]
  · simp [preflightScan, scanAction_eq, hs, hp]
  · simp [preflightScan, scanAction_eq, hs, hp, hg]

/-- C10 core: unset identifiers compare equal, so a gate and a candidate
that both leave some one of the four scoping ids as `None` take the
scope-sharing arm — the candidate waits on the gate and the scan goes on. -/
theorem scan_none_matches_none (b : Block) (route : Route) (ep : String)
    (rest : List Block)
    (h : (b.route.channel_id = none ∧ route.channel_id = none)
      ∨ (b.route.guild_id = none ∧ route.guild_id = none)
      ∨ (b.route.webhook_id = none ∧ route.webhook_id = none)
      ∨ (b.route.webhook_token = none ∧ route.webhook_token = none)) :
    scanAction b route ep = ScanAction.waitContinue
    ∧ preflightScan (b :: rest) route ep = b :: preflightScan rest route ep := by
  have hs : sharesScope b route := by
    rcases h with ⟨h1, h2⟩ | ⟨h1, h2⟩ | ⟨h1, h2⟩ | ⟨h1, h2⟩
    · exact Or.inl (h1.trans h2.symm)
    · exact Or.inr (Or.inl (h1.trans h2.symm))
    · exact Or.inr (Or.inr (Or.inl (h1.trans h2.symm)))
    · exact Or.inr (Or.inr (Or.inr (h1.trans h2.symm)))
  refine ⟨?_, ?_⟩
  · rw [scanAction_eq]; simp [hs]
  · simp [preflightScan, scanAction_eq, hs]

/-- C4 counterexample: a non-global gate and a candidate route sharing none
of the four ids whose routes resolve to the same literal URL — yet the scan
skips the gate (no wait), because the code compares the gate's unresolved
template text against the candidate's merged URL. -/
theorem scan_exact_path_counterexample :
    exampleGate.is_global = false
    ∧ exampleGate.route.channel_id ≠ exampleCand.channel_id
    ∧ exampleGate.route.guild_id ≠ exampleCand.guild_id
    ∧ exampleGate.route.webhook_id ≠ exampleCand.webhook_id
    ∧ exampleGate.route.webhook_token ≠ exampleCand.webhook_token
    ∧ exampleCand.merge apiURL = exampleGate.route.merge apiURL
    ∧ scanAction exampleGate exampleCand (exampleCand.merge apiURL)
        = ScanAction.skip := by
  decide

/-- C4 amended: with no scoping id shared and the gate not global, the scan
makes the candidate wait on the gate exactly when the candidate's merged
URL equals the raw (unresolved) template text stored in the gate route's
`path`. -/
theorem scan_exact_path_amended (b : Block) (cand : Route) (url : String)
    (hg : b.is_global = false)
    (h1 : b.route.channel_id ≠ cand.channel_id)
    (h2 : b.route.guild_id ≠ cand.guild_id)
    (h3 : b.route.webhook_id ≠ cand.webhook_id)
    (h4 : b.route.webhook_token ≠ cand.webhook_token) :
    scanAction b cand (cand.merge url) ≠ ScanAction.skip
      ↔ b.route.rawPath = cand.merge url := by
  have hs : ¬sharesScope b cand := by
    simp [sharesScope, not_or]
    exact ⟨h1, h2, h3, h4⟩
  rw [scanAction_eq]
  by_cases hp : b.route.rawPath = cand.merge url <;> simp [hs, hg, hp]

/-- C4 amended, witness at the fixture instance. -/
theorem scan_exact_path_amended_witness :
    scanAction examplePathGate examplePathCand (examplePathCand.merge apiURL)
      ≠ ScanAction.skip :=
  (scan_exact_path_amended examplePathGate examplePathCand apiURL
    (by decide) (by decide) (by decide) (by decide) (by decide)).mpr (by decide)

/-- C9 core: a 429 naming a fresh bucket whose response lacks the
`X-RateLimit-Reset-After` header (or, with it readable, the
`X-RateLimit-Scope` header) makes `request` end in an uncaught
Python-level error — none of the four typed failures — after installing
the gate and never removing it: the returned dictionary maps the bucket to
the unarmed `Block(route)`, no removal event occurs, and a rescan by the
same route always waits on that unarmed gate. -/
theorem request_missing_ratelimit_headers (blockers : Blockers)
    (route : Route) (ep : String) (r : Response) (resps : Nat → Response)
    (n i : Nat) (bucket : String)
    (h429 : r.status = 429) (hb : r.xBucket = some bucket)
    (hnew : dictGet blockers bucket = none) (hres : resps i = r)
    (hmiss : r.xResetAfter = none
      ∨ (∃ ra, r.xResetAfter = some ra ∧ isPyFloat ra = true
          ∧ r.xScope = none)) :
    (∃ msg, (requestLoop route ep resps (n + 1) i blockers).2.2
        = Outcome.pythonError msg)
    ∧ (requestLoop route ep resps (n + 1) i blockers).2.2 ≠ .unauthorized
    ∧ (requestLoop route ep resps (n + 1) i blockers).2.2 ≠ .forbidden
    ∧ (requestLoop route ep resps (n + 1) i blockers).2.2 ≠ .notFound
    ∧ (requestLoop route ep resps (n + 1) i blockers).2.2 ≠ .httpException
    ∧ dictGet (requestLoop route ep resps (n + 1) i blockers).1 bucket
        = some { route := route }
    ∧ Ev.remove bucket ∉ (requestLoop route ep resps (n + 1) i blockers).2.1
    ∧ (∀ ep2, scanAction { route := route } route ep2
        = ScanAction.waitContinue) := by
  have hat : ∃ msg, attempt blockers route ep r
      = (dictSet blockers bucket { route := route },
         (preflightScan (blockers.map Prod.snd) route ep).map Ev.wait
           ++ [Ev.send ep, Ev.install bucket],
         some (.pythonError msg)) := by
    rcases hmiss with hra | ⟨ra, hra, hfl, hsc⟩
    · exact ⟨"KeyError: X-RateLimit-Reset-After",
        by simp [attempt, h429, hb, hnew, hra]⟩
    · exact ⟨"KeyError: X-RateLimit-Scope",
        by simp [attempt, h429, hb, hnew, hra, hfl, hsc]⟩
  obtain ⟨msg, hat⟩ := hat
  have hloop : requestLoop route ep resps (n + 1) i blockers
      = (dictSet blockers bucket { route := route },
         (preflightScan (blockers.map Prod.snd) route ep).map Ev.wait
           ++ [Ev.send ep, Ev.install bucket],
         Outcome.pythonError msg) := by
    simp [requestLoop, hres, hat]
  rw [hloop]
  refine ⟨⟨msg, rfl⟩, by simp, by simp, by simp, by simp,
    dictGet_dictSet blockers bucket _, by simp, fun ep2 => ?_⟩
  simp [scanAction]

/-- C7: with `max_retries = 5`, a request answered on every attempt by a
429 whose bucket header is unreadable performs exactly five sends, creates
no gate, and then falls off the loop — the implicit `None` return
(`Outcome.exhausted`), not a success body and not a raise. -/
theorem request_exhausts_silently :
    HTTPClient.request 5 apiURL [] { path := [Seg.lit "/users/@me"] }
        (fun _ => { status := 429 })
      = ([],
         List.replicate 5 (Ev.send "https://discord.com/api/v10/users/@me"),
         Outcome.exhausted)
    ∧ countSends (HTTPClient.request 5 apiURL []
        { path := [Seg.lit "/users/@me"] } (fun _ => { status := 429 })).2.1
        = 5 := by
  decide

/-- C8 counterexample: at status 204 — below 400, hence a success per the
claim — `get_cdn_asset` raises the generic failure instead of returning
the body bytes. -/
theorem cdn_status_204_counterexample :
    HTTPClient.get_cdn_asset { status := 204, body := "payload" }
        = HTTPClient.CdnResult.httpException
    ∧ HTTPClient.get_cdn_asset { status := 204, body := "payload" }
        ≠ HTTPClient.CdnResult.bytes "payload"
    ∧ (204 : Nat) < 400 := by
  decide

/-- C8 amended: `get_cdn_asset` returns the body bytes exactly on status
200, the authorization failure exactly on 403, not-found exactly on 404,
and the generic failure exactly on every other status — including statuses
below 400 other than 200. -/
theorem get_cdn_asset_characterization (r : Response) :
    (HTTPClient.get_cdn_asset r = HTTPClient.CdnResult.bytes r.body
      ↔ r.status = 200)
    ∧ (HTTPClient.get_cdn_asset r = HTTPClient.CdnResult.forbidden
      ↔ r.status = 403)
    ∧ (HTTPClient.get_cdn_asset r = HTTPClient.CdnResult.notFound
      ↔ r.status = 404)
    ∧ (HTTPClient.get_cdn_asset r = HTTPClient.CdnResult.httpException
      ↔ r.status ≠ 200 ∧ r.status ≠ 403 ∧ r.status ≠ 404) := by
  by_cases h200 : r.status = 200 <;> by_cases h403 : r.status = 403 <;>
    by_cases h404 : r.status = 404 <;>
      simp_all [HTTPClient.get_cdn_asset]

/-- C1, witness: one 429 on a fresh bucket with both headers readable. -/
theorem attempt_new_gate_429_witness :
    attempt [] { path := [Seg.lit "/users/@me"] } "e"
        { status := 429, xBucket := some "b1", xResetAfter := some "0.5",
          xScope := some "user" }
      = ([], [Ev.send "e", Ev.install "b1", Ev.armWait "b1" "0.5" false,
              Ev.remove "b1"], none) :=
  (attempt_new_gate_429 [] { path := [Seg.lit "/users/@me"] } "e"
    { status := 429, xBucket := some "b1", xResetAfter := some "0.5",
      xScope := some "user" } "b1" "0.5" "user"
    rfl rfl rfl rfl (by decide) rfl).1

/-- C2, witness: a 429 naming a bucket whose gate is already active. -/
theorem attempt_existing_gate_429_witness :
    attempt [("b1", exampleGate)] { path := [Seg.lit "/x"] } "e"
        { status := 429, xBucket := some "b1" }
      = ([("b1", exampleGate)], [Ev.send "e", Ev.wait exampleGate], none) :=
  (attempt_existing_gate_429 [("b1", exampleGate)] { path := [Seg.lit "/x"] }
    "e" { status := 429, xBucket := some "b1" } "b1" exampleGate
    rfl rfl rfl (by decide)).1

/-- C3, witness: a scope-sharing gate is waited on and the scan goes on. -/
theorem scan_branching_witness :
    preflightScan [exampleGate] exampleGateRoute "e"
      = exampleGate :: preflightScan [] exampleGateRoute "e" :=
  (scan_branching exampleGate [] exampleGateRoute "e").1 (Or.inl rfl)

/-- C5, witness: a 404 with three retries left ends at once in not-found. -/
theorem request_hard_failure_witness :
    requestLoop { path := [Seg.lit "/x"] } "e" (fun _ => { status := 404 })
        4 0 []
      = ([], [Ev.send "e"], Outcome.notFound) :=
  request_hard_failure [] { path := [Seg.lit "/x"] } "e" { status := 404 }
    (fun _ => { status := 404 }) 3 0 (by decide) (by decide) rfl

/-- C6, witness: a 429 with no bucket header leaves everything unchanged. -/
theorem attempt_unreadable_bucket_witness :
    attempt [] { path := [Seg.lit "/x"] } "e" { status := 429 }
      = ([], [Ev.send "e"], none) :=
  (attempt_unreadable_bucket [] { path := [Seg.lit "/x"] } "e"
    { status := 429 } (fun _ => { status := 429 }) 0 0 rfl rfl rfl).1

/-- C9, witness: after a 429 with a bucket id but no reset-after header,
the never-armed gate is still in the returned dictionary. -/
theorem request_missing_ratelimit_headers_witness :
    dictGet (requestLoop { path := [Seg.lit "/x"] } "e"
        (fun _ => { status := 429, xBucket := some "b1" }) 1 0 []).1 "b1"
      = some { route := { path := [Seg.lit "/x"] } } :=
  (request_missing_ratelimit_headers [] { path := [Seg.lit "/x"] } "e"
    { status := 429, xBucket := some "b1" }
    (fun _ => { status := 429, xBucket := some "b1" }) 0 0 "b1"
    rfl rfl rfl rfl (Or.inl rfl)).2.2.2.2.2.1

/-- C10, witness: two routes with every identifier unset still take the
scope-sharing arm. -/
theorem scan_none_matches_none_witness :
    scanAction { route := { path := [Seg.lit "/x"] } }
        { path := [Seg.lit "/y"] } "e"
      = ScanAction.waitContinue :=
  (scan_none_matches_none { route := { path := [Seg.lit "/x"] } }
    { path := [Seg.lit "/y"] } "e" [] (Or.inl ⟨rfl, rfl⟩)).1

end Pycord
